import Mathlib

/-!
# Verification of the uupd update orchestrator

Shallow embedding of the `drv` driver package (SystemUpdater, FlatpakUpdater,
DistroboxUpdater), of the modelled-from-spec collaborators (RpmOstreeUpdater,
BrewUpdater, CommandOutput construction, lock/session/check collaborators), and
of the two orchestrator variants of `cmd.Update` (the current one with the
deferred lock release, and the legacy one that releases the lock only on the
fully-successful path).

External effects (subprocess execution, JSON decoding, time parsing, flag
parsing, user enumeration) are supplied by explicit oracle parameters; the
embedding records every observable action (progress-label change, tracker
increment, subprocess spawn, log/notify call) in an event trace.
-/

/-- One OS user session, as produced by the session-enumeration collaborator
(`session.User` with fields `Name`, `UID`). -/
structure User where
  name : String
  uid : Nat
deriving DecidableEq, Repr

/-- `drv.DriverConfiguration`: identity, enablement, multi-user flag, dry-run
flag and the environment lookup table of one driver.  The Go struct also holds
a private `logger`; logging is captured in the event trace instead. -/
structure DriverConfiguration where
  title : String
  description : String
  userDescription : Option String
  enabled : Bool
  multiUser : Bool
  dryRun : Bool
  environment : List (String × String)
deriving DecidableEq, Repr

/-- `drv.CommandOutput`: immutable record of one subprocess invocation.
Fields mirror `Stdout`, `Stderr`, `Context`, `Cli`, `Failure`. -/
structure CommandOutput where
  stdout : String
  stderr : String
  context : String
  cli : List String
  failure : Bool
deriving DecidableEq, Repr

/-- Modelled from the spec: `CommandOutput{}.New(out, err)` (the constructor
lives outside the provided sources).  Per the spec's CommandResult model it
captures the combined output and sets `failed` true iff the subprocess exited
non-zero or could not be launched (i.e. the Go `error` was non-nil). -/
def CommandOutput.new (out : String) (err : Option String) : CommandOutput :=
  { stdout := out, stderr := "", context := "", cli := [], failure := err.isSome }

/-- Modelled from the spec: `CommandOutput.SetFailureContext` (outside the
provided sources) stamps the human-readable context label onto a failed
result. -/
def CommandOutput.setFailureContext (o : CommandOutput) (c : String) : CommandOutput :=
  { o with context := c }

/-- `drv.UpdaterInitConfiguration`: the shared construction-time configuration
(CI detection, dry-run, verbose, environment table). -/
structure UpdaterInitConfiguration where
  ci : Bool
  dryRun : Bool
  verbose : Bool
  environment : List (String × String)
deriving DecidableEq, Repr

/-- The Go pattern `v, exists := env[k]; if !exists || v == "" { default }`
used by every driver to resolve its binary path. -/
def lookupBinary (environment : List (String × String)) (key dflt : String) : String :=
  match environment.lookup key with
  | none => dflt
  | some v => if v = "" then dflt else v

/-- Observable actions of a run: progress-label changes
(`percent.ChangeTrackerMessageFancy`), tracker increments
(`IncrementSection`), subprocess spawns, log and notification calls. -/
inductive Event where
  | label (title description : String)
  | increment (isErr : Bool)
  | spawn (cli : List String)
  | logError (msg : String)
  | logWarn (msg : String)
  | notify (title body : String)
  | verboseHeader
  | reportResult (o : CommandOutput)
  | warnFailed
  | reportSuccess
deriving DecidableEq, Repr

/-- Number of tracker increments in a trace: the run's completed-step
counter. -/
def countIncrements (evts : List Event) : Nat :=
  (evts.filter fun e => match e with | .increment _ => true | _ => false).length

/-- The progress-label subsequence of a trace. -/
def labelsOf (evts : List Event) : List (String × String) :=
  evts.filterMap fun e => match e with | .label t d => some (t, d) | _ => none

/-- The subprocess invocations of a trace. -/
def spawnsOf (evts : List Event) : List (List String) :=
  evts.filterMap fun e => match e with | .spawn c => some c | _ => none

/-- Outcome of the external probes used by `SystemUpdater.Outdated`: the
`bootc status --format=json` subprocess, the JSON decode of its output, and
the RFC3339 parse of the booted image's timestamp, collapsed into one oracle
(timestamps are modelled as integers). -/
inductive ProbeOutcome where
  | execErr (e : String)
  | jsonErr (e : String)
  | parseErr
  | timestamp (t : Int)
deriving DecidableEq, Repr

/-- Oracle for every external subprocess the run may spawn, plus the
modelled collaborators' probe results.  Each entry is the combined output and
the Go error (`none` = nil). -/
structure ExecOracle where
  systemUpgrade : String × Option String
  systemCheck : String × Option String
  statusProbe : ProbeOutcome
  rpmCheck : Bool × Option String
  rpmOutdated : Bool × Option String
  rpmUpgrade : String × Option String
  brewUpgrade : String × Option String
  flatpakRoot : String × Option String
  flatpakUser : User → String × Option String
  distroboxRoot : String × Option String
  distroboxUser : User → String × Option String

/-! ## SystemUpdater (src/drv/system.go) -/

/-- `drv.SystemUpdater`. -/
structure SystemUpdater where
  config : DriverConfiguration
  binaryPath : String
deriving DecidableEq, Repr

/-- `SystemUpdater.New`: the source returns `(up, nil)` on every path, so the
error component is omitted.  In dry-run mode it returns before resolving the
binary path, leaving `BinaryPath` at Go's zero value `""`. -/
def SystemUpdater.new (cfg : UpdaterInitConfiguration) : SystemUpdater :=
  let config : DriverConfiguration :=
    { title := "Bootc", description := "System Image", userDescription := none,
      enabled := !cfg.ci, multiUser := false, dryRun := cfg.dryRun,
      environment := cfg.environment }
  if config.dryRun then
    { config := config, binaryPath := "" }
  else
    { config := config,
      binaryPath := lookupBinary config.environment "UUPD_BOOTC_BINARY" "/usr/bin/bootc" }

/-- `SystemUpdater.Steps`. -/
def SystemUpdater.steps (up : SystemUpdater) : Nat :=
  if up.config.enabled then 1 else 0

/-- `SystemUpdater.Config`. -/
def SystemUpdater.getConfig (up : SystemUpdater) : DriverConfiguration :=
  up.config

/-- The body of Go's `func (up SystemUpdater) SetEnabled(value bool)` as it
acts on the receiver: the assignment `up.config.Enabled = value` on the
receiver value. -/
def SystemUpdater.setEnabledBody (up : SystemUpdater) (value : Bool) : SystemUpdater :=
  { up with config := { up.config with enabled := value } }

/-- Go semantics of the call `up.SetEnabled(value)`: `SetEnabled` is declared
with a *value* receiver, so the method body mutates a copy of the receiver and
the caller's variable is left unchanged. -/
def SystemUpdater.setEnabledCall (up : SystemUpdater) (value : Bool) : SystemUpdater :=
  let _copy := up.setEnabledBody value
  up

/-- `SystemUpdater.Outdated` over the probe oracle.  Mirrors the source: dry
run short-circuits to `(false, nil)`; a subprocess error or JSON decode error
is returned as an error with result `false`; a timestamp-parse error yields
`(false, nil)`; otherwise the result is `timestamp.Before(oneMonthAgo)`. -/
def SystemUpdater.outdated (up : SystemUpdater) (oneMonthAgo : Int)
    (probe : ProbeOutcome) : Bool × Option String :=
  if up.config.dryRun then (false, none)
  else
    match probe with
    | .execErr e => (false, some e)
    | .jsonErr e => (false, some e)
    | .parseErr => (false, none)
    | .timestamp t => (decide (t < oneMonthAgo), none)

/-- Substring test mirroring Go's `strings.Contains`. -/
def containsSub (s pat : String) : Bool :=
  (List.range (s.data.length + 1)).any fun i => pat.data.isPrefixOf (s.data.drop i)

/-- `SystemUpdater.Check`: dry run returns `(true, nil)`; a failing
`bootc upgrade --check` subprocess returns `(true, err)`; otherwise an update
is deemed necessary unless the output contains `"No changes in:"`. -/
def SystemUpdater.check (up : SystemUpdater) (o : ExecOracle) : Bool × Option String :=
  if up.config.dryRun then (true, none)
  else
    let (out, err) := o.systemCheck
    match err with
    | some e => (true, some e)
    | none => (!containsSub out "No changes in:", none)

/-- `SystemUpdater.Update`: unconditionally spawns `BinaryPath upgrade`
(there is no dry-run branch in the source), stamps the context
`"System update"` on failure, and returns the single result together with the
subprocess error. -/
def SystemUpdater.update (up : SystemUpdater) (o : ExecOracle) :
    (List CommandOutput × Option String) × List Event :=
  let cli := [up.binaryPath, "upgrade"]
  let (out, err) := o.systemUpgrade
  let tmpout := CommandOutput.new out err
  let tmpout := if err.isSome then tmpout.setFailureContext "System update" else tmpout
  (([tmpout], err), [Event.spawn cli])

/-! ## FlatpakUpdater (src/unnamed/part_000, i.e. drv/flatpak.go) -/

/-- `drv.FlatpakUpdater` (the `Tracker` pointer is ambient in the embedding:
tracker calls are recorded in the event trace). -/
structure FlatpakUpdater where
  config : DriverConfiguration
  binaryPath : String
  users : List User
  usersEnabled : Bool
deriving DecidableEq, Repr

/-- `FlatpakUpdater.New` (the source returns a nil error on every path). -/
def FlatpakUpdater.new (cfg : UpdaterInitConfiguration) : FlatpakUpdater :=
  let config : DriverConfiguration :=
    { title := "Flatpak", description := "System Apps",
      userDescription := some "Apps for User:", enabled := true,
      multiUser := true, dryRun := cfg.dryRun, environment := cfg.environment }
  { config := config,
    binaryPath := lookupBinary config.environment "UUPD_FLATPAK_BINARY" "/usr/bin/flatpak",
    users := [], usersEnabled := false }

/-- `FlatpakUpdater.Steps`. -/
def FlatpakUpdater.steps (up : FlatpakUpdater) : Nat :=
  if up.config.enabled then 1 + (if up.usersEnabled then up.users.length else 0) else 0

/-- `FlatpakUpdater.SetUsers` (pointer receiver: the caller's updater is
really mutated). -/
def FlatpakUpdater.setUsers (up : FlatpakUpdater) (users : List User) : FlatpakUpdater :=
  { up with users := users, usersEnabled := true }

/-- `FlatpakUpdater.Config`. -/
def FlatpakUpdater.getConfig (up : FlatpakUpdater) : DriverConfiguration :=
  up.config

/-- The body of `func (up FlatpakUpdater) SetEnabled(value bool)` acting on
the receiver value. -/
def FlatpakUpdater.setEnabledBody (up : FlatpakUpdater) (value : Bool) : FlatpakUpdater :=
  { up with config := { up.config with enabled := value } }

/-- Go semantics of the call `up.SetEnabled(value)`: the method has a value
receiver, so it mutates a copy and the caller's variable is unchanged. -/
def FlatpakUpdater.setEnabledCall (up : FlatpakUpdater) (value : Bool) : FlatpakUpdater :=
  let _copy := up.setEnabledBody value
  up

/-- The Go dereference `*up.config.UserDescription` (always set by `New`). -/
def DriverConfiguration.userDesc (c : DriverConfiguration) : String :=
  c.userDescription.getD ""

/-- `FlatpakUpdater.Update`.  Dry-run branch: root label, one increment, then
per user an increment followed by the user label; empty result list.  Real
branch: root label, root spawn and result, then per user an increment, the
user label, a spawn and a result; the returned error is nil on both paths
(the per-user `err` is loop-local in the source). -/
def FlatpakUpdater.update (up : FlatpakUpdater) (o : ExecOracle) :
    (List CommandOutput × Option String) × List Event :=
  if up.config.dryRun then
    (([], none),
      [Event.label up.config.title up.config.description, Event.increment false]
        ++ up.users.flatMap fun u =>
          [Event.increment false,
           Event.label up.config.title (up.config.userDesc ++ " " ++ u.name)])
  else
    let cli := [up.binaryPath, "update", "-y"]
    let (out, err) := o.flatpakRoot
    let root : CommandOutput :=
      { CommandOutput.new out err with
          context := up.config.description, cli := cli, failure := err.isSome }
    let userOut : User → CommandOutput := fun u =>
      let ucli := [up.binaryPath, "update", "-y"]
      let (uout, uerr) := o.flatpakUser u
      { CommandOutput.new uout uerr with
          context := up.config.userDesc ++ " " ++ u.name, cli := ucli,
          failure := uerr.isSome }
    ((root :: up.users.map userOut, none),
      [Event.label up.config.title up.config.description, Event.spawn cli]
        ++ up.users.flatMap fun u =>
          [Event.increment false,
           Event.label up.config.title (up.config.userDesc ++ " " ++ u.name),
           Event.spawn [up.binaryPath, "update", "-y"]])

/-! ## DistroboxUpdater (src/drv/distrobox.go) -/

/-- `drv.DistroboxUpdater`. -/
structure DistroboxUpdater where
  config : DriverConfiguration
  binaryPath : String
  users : List User
  usersEnabled : Bool
deriving DecidableEq, Repr

/-- `DistroboxUpdater.New` (nil error on every path). -/
def DistroboxUpdater.new (cfg : UpdaterInitConfiguration) : DistroboxUpdater :=
  let config : DriverConfiguration :=
    { title := "Distrobox", description := "Rootful Distroboxes",
      userDescription := some "Distroboxes for User:", enabled := true,
      multiUser := true, dryRun := cfg.dryRun, environment := cfg.environment }
  { config := config,
    binaryPath := lookupBinary config.environment "UUPD_DISTROBOX_BINARY" "/usr/bin/distrobox",
    users := [], usersEnabled := false }

/-- `DistroboxUpdater.Steps`. -/
def DistroboxUpdater.steps (up : DistroboxUpdater) : Nat :=
  if up.config.enabled then 1 + (if up.usersEnabled then up.users.length else 0) else 0

/-- `DistroboxUpdater.SetUsers` (pointer receiver). -/
def DistroboxUpdater.setUsers (up : DistroboxUpdater) (users : List User) : DistroboxUpdater :=
  { up with users := users, usersEnabled := true }

/-- `DistroboxUpdater.Config`. -/
def DistroboxUpdater.getConfig (up : DistroboxUpdater) : DriverConfiguration :=
  up.config

/-- The body of `func (up DistroboxUpdater) SetEnabled(value bool)` acting on
the receiver value. -/
def DistroboxUpdater.setEnabledBody (up : DistroboxUpdater) (value : Bool) : DistroboxUpdater :=
  { up with config := { up.config with enabled := value } }

/-- Go semantics of the call `up.SetEnabled(value)`: value receiver, caller's
variable unchanged. -/
def DistroboxUpdater.setEnabledCall (up : DistroboxUpdater) (value : Bool) : DistroboxUpdater :=
  let _copy := up.setEnabledBody value
  up

/-- `DistroboxUpdater.Update`: same shape as `FlatpakUpdater.Update` with the
`upgrade -a` command line, root action run through `session.RunUID 0`. -/
def DistroboxUpdater.update (up : DistroboxUpdater) (o : ExecOracle) :
    (List CommandOutput × Option String) × List Event :=
  if up.config.dryRun then
    (([], none),
      [Event.label up.config.title up.config.description, Event.increment false]
        ++ up.users.flatMap fun u =>
          [Event.increment false,
           Event.label up.config.title (up.config.userDesc ++ " " ++ u.name)])
  else
    let cli := [up.binaryPath, "upgrade", "-a"]
    let (out, err) := o.distroboxRoot
    let root : CommandOutput :=
      { CommandOutput.new out err with
          context := up.config.description, cli := cli, failure := err.isSome }
    let userOut : User → CommandOutput := fun u =>
      let ucli := [up.binaryPath, "upgrade", "-a"]
      let (uout, uerr) := o.distroboxUser u
      { CommandOutput.new uout uerr with
          context := up.config.userDesc ++ " " ++ u.name, cli := ucli,
          failure := uerr.isSome }
    ((root :: up.users.map userOut, none),
      [Event.label up.config.title up.config.description, Event.spawn cli]
        ++ up.users.flatMap fun u =>
          [Event.increment false,
           Event.label up.config.title (up.config.userDesc ++ " " ++ u.name),
           Event.spawn [up.binaryPath, "upgrade", "-a"]])

/-! ## Modelled collaborators: RpmOstreeUpdater and BrewUpdater

Neither driver's source is under `src/`; only their call sites in the
orchestrator are.  They are modelled from the spec. -/

/-- Modelled from the spec: `drv.RpmOstreeUpdater`, the legacy
transactional-package system driver (source file not provided).  Per the spec
it is a single-user system driver constructed unconditionally as the fallback
candidate, pre-disabled in CI contexts like the image-native driver. -/
structure RpmOstreeUpdater where
  config : DriverConfiguration
deriving DecidableEq, Repr

/-- Modelled from the spec: `RpmOstreeUpdater.New`; construction may fail
(the orchestrator checks its error), the `newOk` oracle supplies the outcome. -/
def RpmOstreeUpdater.new (cfg : UpdaterInitConfiguration) (newOk : Bool) :
    RpmOstreeUpdater × Option String :=
  ({ config :=
      { title := "RPM-OSTree", description := "System Updates",
        userDescription := none, enabled := !cfg.ci, multiUser := false,
        dryRun := cfg.dryRun, environment := cfg.environment } },
   if newOk then none else some "construction failed")

/-- Modelled from the spec: `RpmOstreeUpdater.Steps` — 0 if disabled,
otherwise 1 (single-user driver). -/
def RpmOstreeUpdater.steps (up : RpmOstreeUpdater) : Nat :=
  if up.config.enabled then 1 else 0

/-- Modelled from the spec: `RpmOstreeUpdater.SetEnabled` — per §4.1 the
sanctioned mutator that flips `enabled`. -/
def RpmOstreeUpdater.setEnabled (up : RpmOstreeUpdater) (value : Bool) : RpmOstreeUpdater :=
  { up with config := { up.config with enabled := value } }

/-- Modelled from the spec: `RpmOstreeUpdater.Check` — queries the underlying
tool for pending changes; outcome supplied by the oracle. -/
def RpmOstreeUpdater.check (up : RpmOstreeUpdater) (o : ExecOracle) : Bool × Option String :=
  if up.config.dryRun then (true, none) else o.rpmCheck

/-- Modelled from the spec: `RpmOstreeUpdater.Outdated` — staleness probe,
outcome supplied by the oracle; false in dry-run mode. -/
def RpmOstreeUpdater.outdated (up : RpmOstreeUpdater) (o : ExecOracle) : Bool × Option String :=
  if up.config.dryRun then (false, none) else o.rpmOutdated

/-- Modelled from the spec: `RpmOstreeUpdater.Update` — one system-wide
action producing one CommandResult. -/
def RpmOstreeUpdater.update (up : RpmOstreeUpdater) (o : ExecOracle) :
    (List CommandOutput × Option String) × List Event :=
  let cli := ["/usr/bin/rpm-ostree", "upgrade"]
  let (out, err) := o.rpmUpgrade
  let res : CommandOutput :=
    { CommandOutput.new out err with
        context := up.config.description, cli := cli, failure := err.isSome }
  (([res], err), [Event.spawn cli])

/-- Modelled from the spec: `drv.BrewUpdater`, the user-space package-manager
driver (source file not provided): a single-user driver whose availability
probe returns true unconditionally once construction succeeded. -/
structure BrewUpdater where
  config : DriverConfiguration
deriving DecidableEq, Repr

/-- Modelled from the spec: `BrewUpdater.New`; construction may fail, outcome
supplied by the `newOk` oracle. -/
def BrewUpdater.new (cfg : UpdaterInitConfiguration) (newOk : Bool) :
    BrewUpdater × Option String :=
  ({ config :=
      { title := "Brew", description := "CLI Apps", userDescription := none,
        enabled := true, multiUser := false, dryRun := cfg.dryRun,
        environment := cfg.environment } },
   if newOk then none else some "construction failed")

/-- Modelled from the spec: `BrewUpdater.Steps`. -/
def BrewUpdater.steps (up : BrewUpdater) : Nat :=
  if up.config.enabled then 1 else 0

/-- Modelled from the spec: `BrewUpdater.SetEnabled` — per §4.1 flips
`enabled`. -/
def BrewUpdater.setEnabled (up : BrewUpdater) (value : Bool) : BrewUpdater :=
  { up with config := { up.config with enabled := value } }

/-- Modelled from the spec: `BrewUpdater.Update` — one system-wide action. -/
def BrewUpdater.update (up : BrewUpdater) (o : ExecOracle) :
    (List CommandOutput × Option String) × List Event :=
  let cli := ["/usr/bin/brew", "update"]
  let (out, err) := o.brewUpgrade
  let res : CommandOutput :=
    { CommandOutput.new out err with
        context := up.config.description, cli := cli, failure := err.isSome }
  (([res], err), [Event.spawn cli])

/-! ## The driver interface (drv.UpdateDriver / drv.SystemUpdateDriver) -/

/-- The `drv.SystemUpdateDriver` interface value held in `mainSystemDriver`:
either the image-native `SystemUpdater` or the legacy `RpmOstreeUpdater`. -/
inductive MainDriver where
  | system (u : SystemUpdater)
  | rpm (u : RpmOstreeUpdater)
deriving Repr

/-- Interface dispatch of `Steps()` on the selected system driver. -/
def MainDriver.steps : MainDriver → Nat
  | .system u => u.steps
  | .rpm u => u.steps

/-- Interface dispatch of `Check()`. -/
def MainDriver.check (m : MainDriver) (o : ExecOracle) : Bool × Option String :=
  match m with
  | .system u => u.check o
  | .rpm u => u.check o

/-- Interface dispatch of `Outdated()` (`oneMonthAgo` only concerns the
image-native driver's timestamp comparison). -/
def MainDriver.outdated (m : MainDriver) (oneMonthAgo : Int) (o : ExecOracle) :
    Bool × Option String :=
  match m with
  | .system u => u.outdated oneMonthAgo o.statusProbe
  | .rpm u => u.outdated o

/-- Interface dispatch of `Config()`. -/
def MainDriver.getConfig : MainDriver → DriverConfiguration
  | .system u => u.config
  | .rpm u => u.config

/-- An element of the `updaters` slice (`[]drv.UpdateDriver`): an interface
value holding a copy of one concrete driver. -/
inductive Updater where
  | ofMain (m : MainDriver)
  | brew (u : BrewUpdater)
  | flatpak (u : FlatpakUpdater)
  | distrobox (u : DistroboxUpdater)
deriving Repr

/-- Interface dispatch of `Config()` in the run loop. -/
def Updater.getConfig : Updater → DriverConfiguration
  | .ofMain m => m.getConfig
  | .brew u => u.config
  | .flatpak u => u.config
  | .distrobox u => u.config

/-- Interface dispatch of `Steps()`. -/
def Updater.steps : Updater → Nat
  | .ofMain m => m.steps
  | .brew u => u.steps
  | .flatpak u => u.steps
  | .distrobox u => u.steps

/-- Interface dispatch of `Update()`. -/
def Updater.update (u : Updater) (o : ExecOracle) :
    (List CommandOutput × Option String) × List Event :=
  match u with
  | .ofMain (.system s) => s.update o
  | .ofMain (.rpm r) => r.update o
  | .brew b => b.update o
  | .flatpak f => f.update o
  | .distrobox d => d.update o

/-! ## Orchestrator phases (src/unnamed/part_001, the current cmd.Update) -/

/-- Result of the system-driver fallback-selection step
(part_001 lines 78-106). -/
structure FallbackResult where
  systemUpdater : SystemUpdater
  rpmOstreeUpdater : RpmOstreeUpdater
  enableUpd : Bool
  isBootc : Bool
deriving Repr

/-- The fallback-selection step, verbatim from the orchestrator:
`enableUpd := true`; construct the legacy driver (a construction error clears
`enableUpd`); construct the image-native driver (its `New` never fails);
probe `BootcCompatible` (an error means not compatible); then
`systemUpdater.SetEnabled(enableUpd && isBootc)` — a value-receiver call whose
effect is discarded — and `rpmOstreeUpdater.SetEnabled(enableUpd && !isBootc)`
(modelled effectful per the spec, the driver's source not being provided). -/
def fallbackSelection (cfg : UpdaterInitConfiguration) (rpmNewOk : Bool)
    (bootcCompatible : Option Bool) : FallbackResult :=
  let enableUpd := true
  let (rpmOstreeUpdater, rpmErr) := RpmOstreeUpdater.new cfg rpmNewOk
  let enableUpd := if rpmErr.isSome then false else enableUpd
  let systemUpdater := SystemUpdater.new cfg
  let isBootc := match bootcCompatible with | none => false | some b => b
  let systemUpdater := systemUpdater.setEnabledCall (enableUpd && isBootc)
  let rpmOstreeUpdater := rpmOstreeUpdater.setEnabled (enableUpd && !isBootc)
  { systemUpdater := systemUpdater, rpmOstreeUpdater := rpmOstreeUpdater,
    enableUpd := enableUpd, isBootc := isBootc }

/-- `mainSystemDriver` selection: the image-native driver, unless its
configuration reports it disabled. -/
def selectMainDriver (fb : FallbackResult) : MainDriver :=
  if fb.systemUpdater.config.enabled then .system fb.systemUpdater
  else .rpm fb.rpmOstreeUpdater

/-- The availability-check step (part_001 lines 108-113):
`enableUpd, err = mainSystemDriver.Check()`; a non-nil error is logged via
`slog.Error` and the returned boolean is kept as is. -/
def checkStep (m : MainDriver) (o : ExecOracle) : Bool × List Event :=
  let (enableUpd, err) := m.check o
  (enableUpd, if err.isSome then [Event.logError "Failed checking for updates"] else [])

/-- The Accounting step (part_001 lines 115-118): sum the three non-system
drivers' steps, then add the selected system driver's steps only when
`enableUpd` is set. -/
def accounting (brew : BrewUpdater) (flatpak : FlatpakUpdater)
    (distrobox : DistroboxUpdater) (m : MainDriver) (enableUpd : Bool) : Nat :=
  let totalSteps := brew.steps + flatpak.steps + distrobox.steps
  if enableUpd then totalSteps + m.steps else totalSteps

/-- The staleness step: `systemOutdated, err = mainSystemDriver.Outdated()`;
an error is logged; a stale image raises a notification and a warning. -/
def outdatedStep (m : MainDriver) (oneMonthAgo : Int) (o : ExecOracle) :
    Bool × List Event :=
  let (systemOutdated, err) := m.outdated oneMonthAgo o
  let outdatedWarning :=
    "There hasn't been an update in over a month. Consider rebooting or running updates manually"
  (systemOutdated,
    (if err.isSome then [Event.logError "Failed checking if system is out of date"] else [])
      ++ (if systemOutdated then
            [Event.notify "System Warning" outdatedWarning, Event.logWarn outdatedWarning]
          else []))

/-- One iteration of the Executing loop (part_001 lines 165-180): skip a
disabled driver; emit the label for single-user drivers; run `Update()`;
append its results; `tracker.IncrementSection(err)`. -/
def execOne (u : Updater) (o : ExecOracle) : List CommandOutput × List Event :=
  let drvConfig := u.getConfig
  if !drvConfig.enabled then ([], [])
  else
    let pre :=
      if !drvConfig.multiUser then [Event.label drvConfig.title drvConfig.description]
      else []
    let ((out, err), evts) := u.update o
    (out, pre ++ evts ++ [Event.increment err.isSome])

/-- The Executing phase: the loop over the `updaters` slice, accumulating
outputs and events in order. -/
def executing (updaters : List Updater) (o : ExecOracle) :
    List CommandOutput × List Event :=
  updaters.foldl
    (fun acc u => (acc.1 ++ (execOne u o).1, acc.2 ++ (execOne u o).2))
    ([], [])

/-- The Reporting phase (part_001 lines 186-213).  Verbose: log every
collected result and return.  Otherwise partition by `Failure`; a non-empty
failure list yields the failure summary, else the success message. -/
def reporting (verboseRun : Bool) (outputs : List CommandOutput) : List Event :=
  if verboseRun then
    Event.verboseHeader :: outputs.map Event.reportResult
  else
    let failures := outputs.filter (·.failure)
    if failures.length > 0 then
      Event.warnFailed :: failures.map Event.reportResult
    else
      [Event.reportSuccess]

/-- External inputs of the current orchestrator (part_001 `cmd.Update`):
lock acquisition, `cobra` flag lookups (`none` = lookup error), hardware
check, user enumeration (`none` = error), the CI environment variable, the
construction outcomes of the modelled drivers, the `BootcCompatible` probe
(`none` = error), the process environment table, the staleness reference
point and the subprocess oracle. -/
structure Env001 where
  lockOk : Bool
  hwCheckFlag : Option Bool
  dryRunFlag : Option Bool
  verboseFlag : Option Bool
  noProgressFlag : Option Bool
  hwChecksOk : Bool
  users : Option (List User)
  ci : Bool
  brewNewOk : Bool
  rpmNewOk : Bool
  bootcCompatible : Option Bool
  environment : List (String × String)
  oneMonthAgo : Int
  oracle : ExecOracle

/-- Where a run of the current orchestrator returned early. -/
inductive Abort where
  | lockBusy
  | hwCheckFlagErr
  | dryRunFlagErr
  | verboseFlagErr
  | hwChecksFailed
  | listUsersFailed
  | noProgressFlagErr
deriving DecidableEq, Repr

/-- Observable outcome of one orchestration run. -/
structure Run001 where
  abort : Option Abort
  lockAcquired : Bool
  lockReleased : Bool
  totalSteps : Nat
  completedSteps : Nat
  outputs : List CommandOutput
  events : List Event
deriving Repr

/-- An early-returning body result (the deferred lock release is applied by
`cmdUpdate001`, not here). -/
def Run001.aborted (a : Abort) : Run001 :=
  { abort := some a, lockAcquired := true, lockReleased := false,
    totalSteps := 0, completedSteps := 0, outputs := [], events := [] }

/-- The body of the current orchestrator after the lock has been acquired
(everything of part_001 between `AcquireLock` and the function end): flag
lookups, hardware check, user enumeration, driver construction (`SetEnabled`
calls use the Go value-receiver call semantics; `SetUsers` has a pointer
receiver and really mutates), fallback selection, availability check,
accounting, the no-progress flag lookup, staleness check, the Executing loop
and the Reporting phase. -/
def cmdUpdateBody (e : Env001) : Run001 :=
  match e.hwCheckFlag with
  | none => Run001.aborted .hwCheckFlagErr
  | some hwCheck =>
  match e.dryRunFlag with
  | none => Run001.aborted .dryRunFlagErr
  | some dryRun =>
  match e.verboseFlag with
  | none => Run001.aborted .verboseFlagErr
  | some verboseRun =>
  if hwCheck && !e.hwChecksOk then Run001.aborted .hwChecksFailed
  else
  match e.users with
  | none => Run001.aborted .listUsersFailed
  | some users =>
  let initConfiguration : UpdaterInitConfiguration :=
    { ci := e.ci, dryRun := dryRun, verbose := verboseRun,
      environment := e.environment }
  let (brewUpdater, brewErr) := BrewUpdater.new initConfiguration e.brewNewOk
  let brewUpdater := brewUpdater.setEnabled (brewErr.isNone)
  let flatpakUpdater := FlatpakUpdater.new initConfiguration
  let flatpakUpdater := flatpakUpdater.setEnabledCall true
  let flatpakUpdater := flatpakUpdater.setUsers users
  let distroboxUpdater := DistroboxUpdater.new initConfiguration
  let distroboxUpdater := distroboxUpdater.setEnabledCall true
  let distroboxUpdater := distroboxUpdater.setUsers users
  let fb := fallbackSelection initConfiguration e.rpmNewOk e.bootcCompatible
  let mainSystemDriver := selectMainDriver fb
  let (enableUpd, checkEvents) := checkStep mainSystemDriver e.oracle
  let totalSteps := accounting brewUpdater flatpakUpdater distroboxUpdater
    mainSystemDriver enableUpd
  match e.noProgressFlag with
  | none =>
    { Run001.aborted .noProgressFlagErr with
        totalSteps := totalSteps, events := checkEvents }
  | some _noProgress =>
  let (_systemOutdated, outdatedEvents) :=
    outdatedStep mainSystemDriver e.oneMonthAgo e.oracle
  let updaters : List Updater :=
    [.ofMain mainSystemDriver, .brew brewUpdater, .flatpak flatpakUpdater,
     .distrobox distroboxUpdater]
  let (outputs, execEvents) := executing updaters e.oracle
  let reportEvents := reporting verboseRun outputs
  { abort := none, lockAcquired := true, lockReleased := false,
    totalSteps := totalSteps, completedSteps := countIncrements execEvents,
    outputs := outputs,
    events := checkEvents ++ outdatedEvents ++ execEvents ++ reportEvents }

/-- The current orchestrator `cmd.Update` (part_001): a failed lock
acquisition returns before any driver work; otherwise the release is
registered with `defer` immediately after acquisition, so it runs on every
exit path of the body. -/
def cmdUpdate001 (e : Env001) : Run001 :=
  if !e.lockOk then
    { abort := some .lockBusy, lockAcquired := false, lockReleased := false,
      totalSteps := 0, completedSteps := 0, outputs := [], events := [] }
  else
    let body := cmdUpdateBody e
    { body with lockReleased := true }

/-! ## The legacy orchestrator (src/unnamed/part_002 cmd.Update)

No deferred release: `log.Fatalf` terminates the process immediately and the
final `lib.ReleaseLock(lock)` is reached only when the failure list is
empty. -/

/-- External inputs of the legacy orchestrator. -/
structure Env002 where
  lockOk : Bool
  sysDriverErr : Option String
  sysDriverName : String
  imageOutdated : Bool × Option String
  hwCheckFlag : Option Bool
  dryRunFlag : Option Bool
  hwChecksOk : Bool
  users : Option (List User)
  updateAvailable : Bool × Option String
  brewErr : Option String
  noProgressFlag : Option Bool
  sysUpdate : String × Option String
  brewUpdate : String × Option String
  flatpakRoot : String × Option String
  flatpakUser : User → String × Option String
  distroboxRoot : String × Option String
  distroboxUser : User → String × Option String

/-- Observable outcome of a legacy run: `fatal` names the `log.Fatalf` that
terminated the process (the lock is then still held), `failures` the
accumulated failure map in insertion order. -/
structure Run002 where
  fatal : Option String
  lockReleased : Bool
  failures : List (String × String)
deriving DecidableEq, Repr

/-- A `log.Fatalf` exit: the process terminates at once, without releasing
the lock. -/
def Run002.fatalExit (msg : String) : Run002 :=
  { fatal := some msg, lockReleased := false, failures := [] }

/-- The legacy orchestrator `cmd.Update` (part_002), transcribed: every
pre-flight failure is a `log.Fatalf`; the Executing phase accumulates the
`failures` map (system if an update was available, Brew if installed, the
Flatpak root pass and one pass per user, the Distrobox root pass and one pass
per user); a non-empty failure map reports and `return`s — reaching the final
`lib.ReleaseLock(lock)` only when no failure was recorded. -/
def legacyUpdate (e : Env002) : Run002 :=
  if !e.lockOk then Run002.fatalExit "lock"
  else if e.sysDriverErr.isSome then Run002.fatalExit "system driver"
  else if e.imageOutdated.2.isSome then Run002.fatalExit "image outdated probe"
  else
  match e.hwCheckFlag with
  | none => Run002.fatalExit "hw-check flag"
  | some hwCheck =>
  match e.dryRunFlag with
  | none => Run002.fatalExit "dry-run flag"
  | some dryRun =>
  if hwCheck && !e.hwChecksOk then Run002.fatalExit "hardware checks"
  else
  match e.users with
  | none => Run002.fatalExit "list users"
  | some users =>
  let (updAvail, updErr) := e.updateAvailable
  if updErr.isSome && !dryRun then Run002.fatalExit "update check"
  else
  let updateAvailable := updAvail && !dryRun
  let brewInstalled := e.brewErr.isNone
  match e.noProgressFlag with
  | none => Run002.fatalExit "no-progress flag"
  | some _noProgress =>
  let sysFailures :=
    if updateAvailable then
      match e.sysUpdate.2 with
      | some _ => [(e.sysDriverName, e.sysUpdate.1)]
      | none => []
    else []
  let brewFailures :=
    if brewInstalled then
      match e.brewUpdate.2 with
      | some _ => [("Brew", e.brewUpdate.1)]
      | none => []
    else []
  let flatpakRootFailures :=
    match e.flatpakRoot.2 with
    | some _ => [("Flatpak", e.flatpakRoot.1)]
    | none => []
  let flatpakUserFailures := users.filterMap fun u =>
    match (e.flatpakUser u).2 with
    | some _ => some ("Flatpak User: " ++ u.name, (e.flatpakUser u).1)
    | none => none
  let distroboxRootFailures :=
    match e.distroboxRoot.2 with
    | some _ => [("Distrobox", e.distroboxRoot.1)]
    | none => []
  let distroboxUserFailures := users.filterMap fun u =>
    match (e.distroboxUser u).2 with
    | some _ => some ("Distrobox User: " ++ u.name, (e.distroboxUser u).1)
    | none => none
  let failures := sysFailures ++ brewFailures ++ flatpakRootFailures
    ++ flatpakUserFailures ++ distroboxRootFailures ++ distroboxUserFailures
  if failures.length > 0 then
    { fatal := none, lockReleased := false, failures := failures }
  else
    { fatal := none, lockReleased := true, failures := [] }

/-! ## Remaining accessors and concrete fixtures -/

/-- Modelled from the spec: `RpmOstreeUpdater.Config`. -/
def RpmOstreeUpdater.getConfig (up : RpmOstreeUpdater) : DriverConfiguration :=
  up.config

/-- Modelled from the spec: `BrewUpdater.Config`. -/
def BrewUpdater.getConfig (up : BrewUpdater) : DriverConfiguration :=
  up.config

/-- The same flatpak driver with only the dry-run flag changed (used to
compare a dry run against a real run with the same enabled/user
configuration). -/
def FlatpakUpdater.withDryRun (up : FlatpakUpdater) (d : Bool) : FlatpakUpdater :=
  { up with config := { up.config with dryRun := d } }

/-- The same distrobox driver with only the dry-run flag changed. -/
def DistroboxUpdater.withDryRun (up : DistroboxUpdater) (d : Bool) : DistroboxUpdater :=
  { up with config := { up.config with dryRun := d } }

/-- A non-CI, non-dry-run construction configuration. -/
def cfgReal : UpdaterInitConfiguration :=
  { ci := false, dryRun := false, verbose := false, environment := [] }

/-- The same configuration with the dry-run flag set. -/
def cfgDry : UpdaterInitConfiguration :=
  { ci := false, dryRun := true, verbose := false, environment := [] }

/-- Two concrete user sessions. -/
def userA : User := { name := "alice", uid := 1000 }

/-- Second concrete user session. -/
def userB : User := { name := "bob", uid := 1001 }

/-- Oracle on which every external command succeeds and an update is
available. -/
def oracleOk : ExecOracle :=
  { systemUpgrade := ("ok", none), systemCheck := ("Changes available", none),
    statusProbe := .timestamp 0, rpmCheck := (true, none),
    rpmOutdated := (false, none), rpmUpgrade := ("ok", none),
    brewUpgrade := ("ok", none), flatpakRoot := ("ok", none),
    flatpakUser := fun _ => ("ok", none), distroboxRoot := ("ok", none),
    distroboxUser := fun _ => ("ok", none) }

/-- Oracle whose `bootc upgrade` subprocess fails to run. -/
def oracleSysFail : ExecOracle :=
  { oracleOk with systemUpgrade := ("boom", some "exec failure") }

/-- Oracle whose `bootc upgrade --check` subprocess fails. -/
def oracleCheckFail : ExecOracle :=
  { oracleOk with systemCheck := ("", some "exec failed") }

/-- Oracle whose `bootc upgrade --check` reports no pending changes. -/
def oracleNoChanges : ExecOracle :=
  { oracleOk with systemCheck := ("No changes in: ostree-image", none) }

/-- Oracle on which the per-user flatpak pass fails for alice only. -/
def oracleAliceFail : ExecOracle :=
  { oracleOk with
      flatpakUser := fun u =>
        if u.name = "alice" then ("boom", some "exit 1") else ("ok", none) }

/-- A benign environment for the current orchestrator: lock free, all flags
parse, hardware check skipped, no user sessions, not CI, both modelled
constructions succeed, host is bootc-compatible. -/
def envBase : Env001 :=
  { lockOk := true, hwCheckFlag := some false, dryRunFlag := some false,
    verboseFlag := some false, noProgressFlag := some true, hwChecksOk := true,
    users := some [], ci := false, brewNewOk := true, rpmNewOk := true,
    bootcCompatible := some true, environment := [], oneMonthAgo := 0,
    oracle := oracleOk }

/-- `envBase` with an availability check reporting no pending changes. -/
def envNoChanges : Env001 := { envBase with oracle := oracleNoChanges }

/-- `envBase` with a failing availability check. -/
def envCheckFail : Env001 := { envBase with oracle := oracleCheckFail }

/-- A legacy-orchestrator environment on which everything works except the
root flatpak pass, so the run ends on the failure-reporting path. -/
def envLegacyFail : Env002 :=
  { lockOk := true, sysDriverErr := none, sysDriverName := "rpm-ostree",
    imageOutdated := (false, none), hwCheckFlag := some false,
    dryRunFlag := some false, hwChecksOk := true, users := some [],
    updateAvailable := (true, none), brewErr := none,
    noProgressFlag := some false, sysUpdate := ("ok", none),
    brewUpdate := ("ok", none), flatpakRoot := ("boom", some "exit 1"),
    flatpakUser := fun _ => ("ok", none), distroboxRoot := ("ok", none),
    distroboxUser := fun _ => ("ok", none) }

/-- The same legacy environment with every step succeeding. -/
def envLegacyOk : Env002 := { envLegacyFail with flatpakRoot := ("ok", none) }

/-! ## Trace helper lemmas -/

theorem labelsOf_append (a b : List Event) :
    labelsOf (a ++ b) = labelsOf a ++ labelsOf b := by
  simp [labelsOf]

theorem spawnsOf_append (a b : List Event) :
    spawnsOf (a ++ b) = spawnsOf a ++ spawnsOf b := by
  simp [spawnsOf]

theorem countIncrements_append (a b : List Event) :
    countIncrements (a ++ b) = countIncrements a + countIncrements b := by
  simp [countIncrements]

theorem labelsOf_dryUsers (us : List User) (t : String) (g : User → String) :
    labelsOf (us.flatMap fun u => [Event.increment false, Event.label t (g u)])
      = us.map fun u => (t, g u) := by
  induction us with
  | nil => rfl
  | cons u us ih => simpa [labelsOf] using ih

theorem labelsOf_realUsers (us : List User) (t : String) (g : User → String)
    (c : User → List String) :
    labelsOf (us.flatMap fun u =>
        [Event.increment false, Event.label t (g u), Event.spawn (c u)])
      = us.map fun u => (t, g u) := by
  induction us with
  | nil => rfl
  | cons u us ih => simpa [labelsOf] using ih

theorem spawnsOf_dryUsers (us : List User) (t : String) (g : User → String) :
    spawnsOf (us.flatMap fun u => [Event.increment false, Event.label t (g u)]) = [] := by
  induction us with
  | nil => rfl
  | cons u us ih => simpa [spawnsOf] using ih

theorem countIncrements_dryUsers (us : List User) (t : String) (g : User → String) :
    countIncrements (us.flatMap fun u => [Event.increment false, Event.label t (g u)])
      = us.length := by
  induction us with
  | nil => rfl
  | cons u us ih => simpa [countIncrements] using ih

theorem countIncrements_realUsers (us : List User) (t : String) (g : User → String)
    (c : User → List String) :
    countIncrements (us.flatMap fun u =>
        [Event.increment false, Event.label t (g u), Event.spawn (c u)])
      = us.length := by
  induction us with
  | nil => rfl
  | cons u us ih => simpa [countIncrements] using ih

theorem executing_eq (us : List Updater) (o : ExecOracle) :
    executing us o
      = (us.flatMap fun u => (execOne u o).1, us.flatMap fun u => (execOne u o).2) := by
  suffices h : ∀ acc : List CommandOutput × List Event,
      us.foldl (fun acc u => (acc.1 ++ (execOne u o).1, acc.2 ++ (execOne u o).2)) acc
        = (acc.1 ++ us.flatMap fun u => (execOne u o).1,
           acc.2 ++ us.flatMap fun u => (execOne u o).2) by
    simpa [executing] using h ([], [])
  induction us with
  | nil => intro acc; simp
  | cons u us ih => intro acc; simp [List.foldl_cons, ih]

/-! ## C6 — steps() semantics -/

/-- C6: for every driver, `steps()` returns 0 when the driver is disabled;
an enabled single-user driver (SystemUpdater) returns 1; an enabled
multi-user driver (Flatpak, Distrobox) returns 1 plus the number of user
sessions registered via `setUsers`; `steps` is a pure function of the
current enabled/user-set state (it is a Lean function of the driver value,
so it is side-effect free and always reflects the latest state). -/
theorem C6_steps_semantics :
    (∀ up : SystemUpdater,
      (up.config.enabled = false → up.steps = 0) ∧
      (up.config.enabled = true → up.steps = 1)) ∧
    (∀ (up : FlatpakUpdater) (us : List User),
      (up.config.enabled = false → (up.setUsers us).steps = 0) ∧
      (up.config.enabled = true → (up.setUsers us).steps = 1 + us.length)) ∧
    (∀ (up : DistroboxUpdater) (us : List User),
      (up.config.enabled = false → (up.setUsers us).steps = 0) ∧
      (up.config.enabled = true → (up.setUsers us).steps = 1 + us.length)) := by
  refine ⟨fun up => ⟨fun h => ?_, fun h => ?_⟩,
    fun up us => ⟨fun h => ?_, fun h => ?_⟩,
    fun up us => ⟨fun h => ?_, fun h => ?_⟩⟩ <;>
  simp [SystemUpdater.steps, FlatpakUpdater.steps, FlatpakUpdater.setUsers,
    DistroboxUpdater.steps, DistroboxUpdater.setUsers, h]

/-- Witness for C6: a concrete enabled multi-user driver with two registered
users reports three steps. -/
theorem C6_steps_semantics_witness :
    ((FlatpakUpdater.new cfgReal).setUsers [userA, userB]).steps = 1 + 2 :=
  (C6_steps_semantics.2.1 (FlatpakUpdater.new cfgReal) [userA, userB]).2 rfl

/-! ## C8 — Outdated() semantics -/

/-- C8: `SystemUpdater.Outdated` returns false with no error in dry-run mode;
otherwise it returns true exactly when the booted image's timestamp is
strictly before the one-month-ago reference point; a timestamp-parse failure
yields `(false, nil)`; a subprocess or JSON-decode failure is returned as an
error. -/
theorem C8_outdated_semantics :
    ∀ (up : SystemUpdater) (oma : Int) (probe : ProbeOutcome),
      (up.config.dryRun = true → up.outdated oma probe = (false, none)) ∧
      (up.config.dryRun = false →
        (((up.outdated oma probe).1 = true) ↔ ∃ t, probe = .timestamp t ∧ t < oma) ∧
        (probe = .parseErr → up.outdated oma probe = (false, none)) ∧
        (∀ e, probe = .execErr e ∨ probe = .jsonErr e →
          up.outdated oma probe = (false, some e))) := by
  intro up oma probe
  refine ⟨fun h => ?_, fun h => ⟨?_, fun hp => ?_, fun e he => ?_⟩⟩
  · simp [SystemUpdater.outdated, h]
  · cases probe <;> simp [SystemUpdater.outdated, h]
  · simp [SystemUpdater.outdated, h, hp]
  · rcases he with he | he <;> simp [SystemUpdater.outdated, h, he]

/-- Witness for C8: a real-mode driver with a two-months-old timestamp is
outdated; a dry-run driver is not, whatever the probe. -/
theorem C8_outdated_semantics_witness :
    ((SystemUpdater.new cfgReal).outdated 5 (.timestamp 3)).1 = true ∧
    (SystemUpdater.new cfgDry).outdated 5 (.timestamp 3) = (false, none) :=
  ⟨((C8_outdated_semantics (SystemUpdater.new cfgReal) 5 (.timestamp 3)).2 rfl).1.mpr
      ⟨3, rfl, by decide⟩,
   (C8_outdated_semantics (SystemUpdater.new cfgDry) 5 (.timestamp 3)).1 rfl⟩

/-! ## C10 — verbose reporting -/

/-- C10: with the verbose flag set, the Reporting phase logs the header and
every collected CommandResult, and returns without partitioning the results:
neither the failure summary nor the final success message is emitted,
whatever the results' failure flags. -/
theorem C10_verbose_reporting :
    ∀ outputs : List CommandOutput,
      reporting true outputs = Event.verboseHeader :: outputs.map Event.reportResult ∧
      Event.warnFailed ∉ reporting true outputs ∧
      Event.reportSuccess ∉ reporting true outputs := by
  intro outputs
  refine ⟨rfl, ?_, ?_⟩ <;> simp [reporting]

/-! ## C3 — SetEnabled is a no-op for the callers (code bug) -/

/-- C3 (code bug): `SetEnabled` is declared with a value receiver on every
driver in the source, so the assignment lands on a copy of the receiver and
a subsequent `Config()` still reports the construction-time `enabled` value.
The first three conjuncts evaluate the failing input — a freshly constructed
driver on which `SetEnabled(false)` is called and `Config()` still reports
enabled.  The last three conjuncts show the receiver copy does get the new
value while the caller's driver is returned unchanged. -/
theorem C3_setEnabled_has_no_effect :
    ((FlatpakUpdater.new cfgReal).setEnabledCall false).getConfig.enabled = true ∧
    ((DistroboxUpdater.new cfgReal).setEnabledCall false).getConfig.enabled = true ∧
    ((SystemUpdater.new cfgReal).setEnabledCall false).getConfig.enabled = true ∧
    (∀ (up : FlatpakUpdater) (v : Bool),
      (up.setEnabledBody v).config.enabled = v ∧ up.setEnabledCall v = up) ∧
    (∀ (up : DistroboxUpdater) (v : Bool),
      (up.setEnabledBody v).config.enabled = v ∧ up.setEnabledCall v = up) ∧
    (∀ (up : SystemUpdater) (v : Bool),
      (up.setEnabledBody v).config.enabled = v ∧ up.setEnabledCall v = up) := by
  refine ⟨rfl, rfl, rfl, fun up v => ⟨rfl, rfl⟩, fun up v => ⟨rfl, rfl⟩,
    fun up v => ⟨rfl, rfl⟩⟩

/-! ## C2 — fallback selection is not exclusive (code bug) -/

/-- C2 (code bug): after the fallback-selection step with CI unset and both
constructions succeeding, both system drivers report `enabled = true` through
`Config()` — the `systemUpdater.SetEnabled(enableUpd && isBootc)` call
mutates a value-receiver copy, so the image-native driver keeps its
construction-time `enabled = !Ci = true` even when the host is not
bootc-compatible, while the legacy driver is enabled as the fallback. -/
theorem C2_fallback_not_exclusive :
    (fallbackSelection cfgReal true (some false)).systemUpdater.getConfig.enabled = true ∧
    (fallbackSelection cfgReal true (some false)).rpmOstreeUpdater.getConfig.enabled = true ∧
    (fallbackSelection cfgReal true (some true)).systemUpdater.getConfig.enabled = true ∧
    (fallbackSelection cfgReal true (some true)).rpmOstreeUpdater.getConfig.enabled = false :=
  ⟨rfl, rfl, rfl, rfl⟩

theorem spawnsOf_realUsers (us : List User) (t : String) (g : User → String)
    (c : User → List String) :
    spawnsOf (us.flatMap fun u =>
        [Event.increment false, Event.label t (g u), Event.spawn (c u)])
      = us.map c := by
  induction us with
  | nil => rfl
  | cons u us ih => simpa [spawnsOf] using ih

theorem stringAppendLeftCancel (s t u : String) (h : s ++ t = s ++ u) : t = u := by
  have hd := congrArg String.data h
  simp [String.data_append] at hd
  exact String.ext hd


theorem labelsOf_cons_label (t d : String) (rest : List Event) :
    labelsOf (Event.label t d :: rest) = (t, d) :: labelsOf rest := by
  simp [labelsOf]

theorem labelsOf_cons_increment (b : Bool) (rest : List Event) :
    labelsOf (Event.increment b :: rest) = labelsOf rest := by
  simp [labelsOf]

theorem labelsOf_cons_spawn (c : List String) (rest : List Event) :
    labelsOf (Event.spawn c :: rest) = labelsOf rest := by
  simp [labelsOf]

theorem labelsOf_nil : labelsOf [] = [] := rfl

theorem spawnsOf_cons_label (t d : String) (rest : List Event) :
    spawnsOf (Event.label t d :: rest) = spawnsOf rest := by
  simp [spawnsOf]

theorem spawnsOf_cons_increment (b : Bool) (rest : List Event) :
    spawnsOf (Event.increment b :: rest) = spawnsOf rest := by
  simp [spawnsOf]

theorem spawnsOf_cons_spawn (c : List String) (rest : List Event) :
    spawnsOf (Event.spawn c :: rest) = c :: spawnsOf rest := by
  simp [spawnsOf]

theorem spawnsOf_nil : spawnsOf [] = [] := rfl

theorem countIncrements_cons_label (t d : String) (rest : List Event) :
    countIncrements (Event.label t d :: rest) = countIncrements rest := by
  simp [countIncrements]

theorem countIncrements_cons_increment (b : Bool) (rest : List Event) :
    countIncrements (Event.increment b :: rest) = countIncrements rest + 1 := by
  simp [countIncrements, Nat.add_comm]

theorem countIncrements_cons_spawn (c : List String) (rest : List Event) :
    countIncrements (Event.spawn c :: rest) = countIncrements rest := by
  simp [countIncrements]

theorem countIncrements_nil : countIncrements [] = 0 := rfl

theorem flatpak_labels (up : FlatpakUpdater) (o : ExecOracle) :
    labelsOf (up.update o).2
      = (up.config.title, up.config.description)
        :: up.users.map fun u => (up.config.title, up.config.userDesc ++ " " ++ u.name) := by
  by_cases h : up.config.dryRun <;>
    simp [FlatpakUpdater.update, h, labelsOf_cons_label, labelsOf_cons_increment,
      labelsOf_cons_spawn, labelsOf_append, labelsOf_dryUsers, labelsOf_realUsers,
      labelsOf_nil]

theorem distrobox_labels (up : DistroboxUpdater) (o : ExecOracle) :
    labelsOf (up.update o).2
      = (up.config.title, up.config.description)
        :: up.users.map fun u => (up.config.title, up.config.userDesc ++ " " ++ u.name) := by
  by_cases h : up.config.dryRun <;>
    simp [DistroboxUpdater.update, h, labelsOf_cons_label, labelsOf_cons_increment,
      labelsOf_cons_spawn, labelsOf_append, labelsOf_dryUsers, labelsOf_realUsers,
      labelsOf_nil]

/-! ## C1 — dry-run contract (corrected) -/

/-- C1 counterexample: the system driver constructed with the dry-run flag
set still attempts its `upgrade` subprocess inside `Update()` and returns a
one-element result sequence — `SystemUpdater.Update` has no dry-run branch
in the source. -/
theorem C1_counterexample :
    ¬(((SystemUpdater.new cfgDry).update oracleSysFail).1.1 = [] ∧
      spawnsOf ((SystemUpdater.new cfgDry).update oracleSysFail).2 = []) := by
  decide

/-- C1 amended: for the multi-user drivers (Flatpak, Distrobox) a dry-run
`update()` returns an empty result sequence with no error, launches zero
subprocesses, and emits exactly the progress-label sequence that a real run
with the same enabled/user configuration emits; the system driver's
`update()`, however, ignores the dry-run flag: it always attempts exactly one
subprocess and returns a one-element result sequence. -/
theorem C1_amended :
    (∀ (up : FlatpakUpdater) (o : ExecOracle), up.config.dryRun = true →
      (up.update o).1 = ([], none) ∧ spawnsOf (up.update o).2 = []) ∧
    (∀ (up : FlatpakUpdater) (o o' : ExecOracle),
      labelsOf ((up.withDryRun true).update o).2
        = labelsOf ((up.withDryRun false).update o').2) ∧
    (∀ (up : DistroboxUpdater) (o : ExecOracle), up.config.dryRun = true →
      (up.update o).1 = ([], none) ∧ spawnsOf (up.update o).2 = []) ∧
    (∀ (up : DistroboxUpdater) (o o' : ExecOracle),
      labelsOf ((up.withDryRun true).update o).2
        = labelsOf ((up.withDryRun false).update o').2) ∧
    (∀ (up : SystemUpdater) (o : ExecOracle),
      ((up.update o).1.1).length = 1 ∧
      spawnsOf (up.update o).2 = [[up.binaryPath, "upgrade"]]) := by
  refine ⟨fun up o h => ⟨?_, ?_⟩, fun up o o' => ?_, fun up o h => ⟨?_, ?_⟩,
    fun up o o' => ?_, fun up o => ⟨?_, ?_⟩⟩
  · simp [FlatpakUpdater.update, h]
  · simp [FlatpakUpdater.update, h, spawnsOf_cons_label, spawnsOf_cons_increment,
      spawnsOf_append, spawnsOf_dryUsers, spawnsOf_nil]
  · rw [flatpak_labels (up.withDryRun true) o, flatpak_labels (up.withDryRun false) o']
    rfl
  · simp [DistroboxUpdater.update, h]
  · simp [DistroboxUpdater.update, h, spawnsOf_cons_label, spawnsOf_cons_increment,
      spawnsOf_append, spawnsOf_dryUsers, spawnsOf_nil]
  · rw [distrobox_labels (up.withDryRun true) o, distrobox_labels (up.withDryRun false) o']
    rfl
  · cases herr : (o.systemUpgrade).2 <;> simp [SystemUpdater.update, herr]
  · cases herr : (o.systemUpgrade).2 <;>
      simp [SystemUpdater.update, herr, spawnsOf_cons_spawn, spawnsOf_nil]

/-- Witness for C1 amended: concrete dry-run flatpak driver with one user:
empty results, no spawns. -/
theorem C1_amended_witness :
    (((FlatpakUpdater.new cfgDry).setUsers [userA]).update oracleOk).1 = ([], none) ∧
    spawnsOf (((FlatpakUpdater.new cfgDry).setUsers [userA]).update oracleOk).2 = [] :=
  C1_amended.1 ((FlatpakUpdater.new cfgDry).setUsers [userA]) oracleOk rfl

/-! ## C7 — multi-user ordering and completeness -/

/-- C7: in a non-dry run, a multi-user driver's `update()` returns exactly
one result per action in the order [root, user₁, user₂, …] — the root
context first, then one context per registered user in registration order —
attempts one subprocess per action whatever subset of the actions the oracle
makes fail, and the context labels are pairwise distinct whenever the
registered user names are. -/
theorem C7_multiuser_ordering :
    ∀ (users : List User) (o : ExecOracle),
      ((((FlatpakUpdater.new cfgReal).setUsers users).update o).1.1.map (·.context)
          = "System Apps" :: users.map (fun u => "Apps for User:" ++ " " ++ u.name)) ∧
      spawnsOf ((((FlatpakUpdater.new cfgReal).setUsers users).update o).2)
          = ["/usr/bin/flatpak", "update", "-y"]
            :: users.map (fun _ => ["/usr/bin/flatpak", "update", "-y"]) ∧
      ((users.map User.name).Nodup →
        ((((FlatpakUpdater.new cfgReal).setUsers users).update o).1.1.map
            (·.context)).Nodup) ∧
      ((((DistroboxUpdater.new cfgReal).setUsers users).update o).1.1.map (·.context)
          = "Rootful Distroboxes"
            :: users.map (fun u => "Distroboxes for User:" ++ " " ++ u.name)) ∧
      spawnsOf ((((DistroboxUpdater.new cfgReal).setUsers users).update o).2)
          = ["/usr/bin/distrobox", "upgrade", "-a"]
            :: users.map (fun _ => ["/usr/bin/distrobox", "upgrade", "-a"]) ∧
      ((users.map User.name).Nodup →
        ((((DistroboxUpdater.new cfgReal).setUsers users).update o).1.1.map
            (·.context)).Nodup) := by
  intro users o
  have hnodup : ∀ (root pre : String), root.length < pre.length + 1 →
      (users.map User.name).Nodup →
      (root :: users.map (fun u => pre ++ " " ++ u.name)).Nodup := by
    intro root pre hlt hnames
    refine List.nodup_cons.mpr ⟨?_, ?_⟩
    · intro hmem
      obtain ⟨u, _, hu⟩ := List.mem_map.mp hmem
      have hlen := congrArg String.length hu
      simp [String.length_append, show (" " : String).length = 1 from rfl] at hlen
      omega
    · have hmapeq : users.map (fun u => pre ++ " " ++ u.name)
          = (users.map User.name).map (fun n => pre ++ " " ++ n) := by
        simp [List.map_map]
      rw [hmapeq]
      exact hnames.map fun a b hab => stringAppendLeftCancel (pre ++ " ") a b hab
  have hctxF : (((FlatpakUpdater.new cfgReal).setUsers users).update o).1.1.map (·.context)
      = "System Apps" :: users.map (fun u => "Apps for User:" ++ " " ++ u.name) := by
    simp [FlatpakUpdater.update, FlatpakUpdater.new, FlatpakUpdater.setUsers, cfgReal,
      DriverConfiguration.userDesc, lookupBinary]
  have hctxD : (((DistroboxUpdater.new cfgReal).setUsers users).update o).1.1.map (·.context)
      = "Rootful Distroboxes"
        :: users.map (fun u => "Distroboxes for User:" ++ " " ++ u.name) := by
    simp [DistroboxUpdater.update, DistroboxUpdater.new, DistroboxUpdater.setUsers, cfgReal,
      DriverConfiguration.userDesc, lookupBinary]
  refine ⟨hctxF, ?_, ?_, hctxD, ?_, ?_⟩
  · simp [FlatpakUpdater.update, FlatpakUpdater.new, FlatpakUpdater.setUsers, cfgReal,
      lookupBinary, spawnsOf_cons_label, spawnsOf_cons_spawn, spawnsOf_append,
      spawnsOf_realUsers, spawnsOf_nil]
  · intro hn
    rw [hctxF]
    exact hnodup "System Apps" "Apps for User:" (by decide) hn
  · simp [DistroboxUpdater.update, DistroboxUpdater.new, DistroboxUpdater.setUsers, cfgReal,
      lookupBinary, spawnsOf_cons_label, spawnsOf_cons_spawn, spawnsOf_append,
      spawnsOf_realUsers, spawnsOf_nil]
  · intro hn
    rw [hctxD]
    exact hnodup "Rootful Distroboxes" "Distroboxes for User:" (by decide) hn

/-- Witness for C7: with two distinct users of which the first one's flatpak
pass fails, the contexts are still [root, alice, bob] and pairwise
distinct. -/
theorem C7_multiuser_ordering_witness :
    ((((FlatpakUpdater.new cfgReal).setUsers [userA, userB]).update
        oracleAliceFail).1.1.map (·.context)
      = "System Apps" :: ["Apps for User:" ++ " " ++ "alice",
          "Apps for User:" ++ " " ++ "bob"]) ∧
    ((((FlatpakUpdater.new cfgReal).setUsers [userA, userB]).update
        oracleAliceFail).1.1.map (·.context)).Nodup :=
  ⟨(C7_multiuser_ordering [userA, userB] oracleAliceFail).1,
   (C7_multiuser_ordering [userA, userB] oracleAliceFail).2.2.1 (by decide)⟩

/-! ## C9 — probe-failure handling (corrected) -/

/-- C9 counterexample: with a failing `bootc upgrade --check` subprocess the
orchestrator's check step does *not* assume availability false — the source's
`Check` returns `(true, err)` on error and the orchestrator keeps the
returned boolean, so the probed availability is assumed true. -/
theorem C9_counterexample :
    ¬(checkStep (.system (SystemUpdater.new cfgReal)) oracleCheckFail).1 = false := by
  decide

/-- C9 amended: when the system driver's `checkAvailability` probe fails, the
orchestrator logs an error ("Failed checking for updates", via `slog.Error`,
not a warning), adopts the boolean returned by the probe — which is `true`
for the system driver on a probe failure, so the driver still participates —
and the run proceeds to the remaining phases without aborting. -/
theorem C9_amended :
    (∀ (up : SystemUpdater) (o : ExecOracle) (out e : String),
      up.config.dryRun = false → o.systemCheck = (out, some e) →
      checkStep (.system up) o
        = (true, [Event.logError "Failed checking for updates"])) ∧
    (∀ (env : Env001) (us : List User),
      env.lockOk = true → env.hwCheckFlag = some false →
      env.dryRunFlag = some false → env.verboseFlag = some false →
      env.users = some us → env.noProgressFlag = some true →
      (cmdUpdate001 env).abort = none) := by
  constructor
  · intro up o out e hdry hcheck
    simp [checkStep, MainDriver.check, SystemUpdater.check, hdry, hcheck]
  · intro env us h1 h2 h3 h4 h5 h6
    simp [cmdUpdate001, cmdUpdateBody, h1, h2, h3, h4, h5, h6]

/-- Witness for C9 amended: the concrete failing-check environment keeps the
system driver available, logs the error and completes the run. -/
theorem C9_amended_witness :
    checkStep (.system (SystemUpdater.new cfgReal)) oracleCheckFail
        = (true, [Event.logError "Failed checking for updates"]) ∧
    (cmdUpdate001 envCheckFail).abort = none :=
  ⟨C9_amended.1 (SystemUpdater.new cfgReal) oracleCheckFail "" "exec failed" rfl rfl,
   C9_amended.2 envCheckFail [] rfl rfl rfl rfl rfl rfl⟩

/-! ## C5 — step accounting (corrected) -/

theorem execOne_increments_main (m : MainDriver) (o : ExecOracle) :
    countIncrements (execOne (.ofMain m) o).2 = m.steps := by
  cases m with
  | system s =>
      by_cases he : s.config.enabled <;> by_cases hm : s.config.multiUser <;>
        simp [execOne, Updater.getConfig, MainDriver.getConfig, Updater.update,
          SystemUpdater.update, SystemUpdater.steps, MainDriver.steps, he, hm,
          countIncrements_append, countIncrements_cons_label,
          countIncrements_cons_spawn, countIncrements_cons_increment,
          countIncrements_nil]
  | rpm r =>
      by_cases he : r.config.enabled <;> by_cases hm : r.config.multiUser <;>
        simp [execOne, Updater.getConfig, MainDriver.getConfig, Updater.update,
          RpmOstreeUpdater.update, RpmOstreeUpdater.steps, MainDriver.steps, he, hm,
          countIncrements_append, countIncrements_cons_label,
          countIncrements_cons_spawn, countIncrements_cons_increment,
          countIncrements_nil]

theorem execOne_increments_brew (b : BrewUpdater) (o : ExecOracle) :
    countIncrements (execOne (.brew b) o).2 = b.steps := by
  by_cases he : b.config.enabled <;> by_cases hm : b.config.multiUser <;>
    simp [execOne, Updater.getConfig, Updater.update, BrewUpdater.update,
      BrewUpdater.steps, he, hm, countIncrements_append, countIncrements_cons_label,
      countIncrements_cons_spawn, countIncrements_cons_increment, countIncrements_nil]

theorem execOne_increments_flatpak (f : FlatpakUpdater) (o : ExecOracle)
    (hd : f.config.dryRun = false) (hu : f.usersEnabled = true) :
    countIncrements (execOne (.flatpak f) o).2 = f.steps := by
  by_cases he : f.config.enabled <;> by_cases hm : f.config.multiUser <;>
    simp [execOne, Updater.getConfig, Updater.update, FlatpakUpdater.update,
      FlatpakUpdater.steps, hd, he, hm, hu, countIncrements_append,
      countIncrements_cons_label, countIncrements_cons_spawn,
      countIncrements_cons_increment, countIncrements_realUsers,
      countIncrements_nil, Nat.add_comm]

theorem execOne_increments_distrobox (d : DistroboxUpdater) (o : ExecOracle)
    (hd : d.config.dryRun = false) (hu : d.usersEnabled = true) :
    countIncrements (execOne (.distrobox d) o).2 = d.steps := by
  by_cases he : d.config.enabled <;> by_cases hm : d.config.multiUser <;>
    simp [execOne, Updater.getConfig, Updater.update, DistroboxUpdater.update,
      DistroboxUpdater.steps, hd, he, hm, hu, countIncrements_append,
      countIncrements_cons_label, countIncrements_cons_spawn,
      countIncrements_cons_increment, countIncrements_realUsers,
      countIncrements_nil, Nat.add_comm]

/-- C5 counterexample: in the concrete run `envNoChanges` — every driver
enabled, no user sessions, host bootc-compatible, availability check
reporting "No changes in:" — the Accounting total is 3 while the enabled
drivers' steps sum to 4 and the Executing phase performs 4 increments: the
completed-step counter does not equal the precomputed total, without any
step failing. -/
theorem C5_counterexample :
    (cmdUpdate001 envNoChanges).totalSteps = 3 ∧
    (cmdUpdate001 envNoChanges).completedSteps = 4 ∧
    ¬(cmdUpdate001 envNoChanges).completedSteps
        = (cmdUpdate001 envNoChanges).totalSteps := by
  refine ⟨by decide, by decide, by decide⟩

/-- C5 amended: the Accounting total equals the three non-system drivers'
steps plus the selected system driver's steps *only when the availability
check returned true*, whereas a complete non-dry Executing phase always
performs one increment per enabled driver step — so the completed-step
counter equals the sum of `steps()` over all enabled drivers (failures
included), and coincides with the Accounting total exactly on runs where the
check returned true (or the system driver contributes no steps). -/
theorem C5_amended :
    ∀ (m : MainDriver) (brew : BrewUpdater) (fl : FlatpakUpdater)
      (db : DistroboxUpdater) (o : ExecOracle) (enableUpd : Bool),
      fl.config.dryRun = false → db.config.dryRun = false →
      fl.usersEnabled = true → db.usersEnabled = true →
      (accounting brew fl db m enableUpd
        = brew.steps + fl.steps + db.steps + (if enableUpd then m.steps else 0)) ∧
      (countIncrements (executing
          [.ofMain m, .brew brew, .flatpak fl, .distrobox db] o).2
        = m.steps + brew.steps + fl.steps + db.steps) ∧
      (enableUpd = true →
        countIncrements (executing
            [.ofMain m, .brew brew, .flatpak fl, .distrobox db] o).2
          = accounting brew fl db m enableUpd) := by
  intro m brew fl db o enableUpd hfd hdd hfu hdu
  have hacc : accounting brew fl db m enableUpd
      = brew.steps + fl.steps + db.steps + (if enableUpd then m.steps else 0) := by
    cases enableUpd <;> simp [accounting]
  have hexec : countIncrements (executing
      [.ofMain m, .brew brew, .flatpak fl, .distrobox db] o).2
      = m.steps + brew.steps + fl.steps + db.steps := by
    rw [executing_eq]
    simp only [List.flatMap_cons, List.flatMap_nil, List.append_nil,
      countIncrements_append]
    rw [execOne_increments_main, execOne_increments_brew,
      execOne_increments_flatpak fl o hfd hfu,
      execOne_increments_distrobox db o hdd hdu]
    omega
  refine ⟨hacc, hexec, fun hup => ?_⟩
  rw [hexec, hacc, hup]
  simp
  omega

/-- Witness for C5 amended: a concrete run with the check returning true —
system driver 1 step, brew 1, flatpak 2 (one user), distrobox 2 — where the
completed increments equal the Accounting total. -/
theorem C5_amended_witness :
    countIncrements (executing
        [.ofMain (.system (SystemUpdater.new cfgReal)),
         .brew (BrewUpdater.new cfgReal true).1,
         .flatpak ((FlatpakUpdater.new cfgReal).setUsers [userA]),
         .distrobox ((DistroboxUpdater.new cfgReal).setUsers [userA])] oracleOk).2
      = accounting (BrewUpdater.new cfgReal true).1
          ((FlatpakUpdater.new cfgReal).setUsers [userA])
          ((DistroboxUpdater.new cfgReal).setUsers [userA])
          (.system (SystemUpdater.new cfgReal)) true :=
  (C5_amended (.system (SystemUpdater.new cfgReal)) (BrewUpdater.new cfgReal true).1
    ((FlatpakUpdater.new cfgReal).setUsers [userA])
    ((DistroboxUpdater.new cfgReal).setUsers [userA]) oracleOk true
    rfl rfl rfl rfl).2.2 rfl

/-! ## C4 — lock-release discipline (corrected) -/

/-- C4 counterexample: a legacy-orchestrator run (part_002) on which only the
root flatpak pass fails completes without any fatal abort, takes the
failure-reporting path, and ends with the lock still held: the final
`lib.ReleaseLock` sits after the `return` of the failure branch and the
function body has no deferred release. -/
theorem C4_counterexample :
    (legacyUpdate envLegacyFail).fatal = none ∧
    (legacyUpdate envLegacyFail).failures = [("Flatpak", "boom")] ∧
    (legacyUpdate envLegacyFail).lockReleased = false := by
  refine ⟨by decide, by decide, by decide⟩

set_option maxHeartbeats 1000000 in
/-- C4 amended: in the current orchestrator (part_001) the release is
deferred right after acquisition, so every exit path of an acquired run —
flag-parsing failures, hardware-check failure, user-enumeration failure, and
the reporting paths — releases the lock, and a failed acquisition performs no
driver work; in the legacy orchestrator (part_002) the lock is released
exactly on the fully-successful path: any `log.Fatalf` pre-flight exit and
the failed-updates-reported path end the run with the lock still held. -/
theorem C4_amended :
    (∀ e : Env001, e.lockOk = true → (cmdUpdate001 e).lockReleased = true) ∧
    (∀ e : Env001, e.lockOk = false →
      (cmdUpdate001 e).lockAcquired = false ∧ (cmdUpdate001 e).outputs = []) ∧
    (∀ e : Env002, (legacyUpdate e).lockReleased = true ↔
      (legacyUpdate e).fatal = none ∧ (legacyUpdate e).failures = []) := by
  refine ⟨fun e h => ?_, fun e h => ?_, fun e => ?_⟩
  · simp [cmdUpdate001, h]
  · simp [cmdUpdate001, h]
  · unfold legacyUpdate
    repeat' split
    all_goals try simp_all [Run002.fatalExit]
    all_goals repeat' split
    all_goals
      try simp_all [List.length_pos, Nat.not_lt, Nat.le_zero, List.length_eq_zero,
        List.filterMap_eq_nil_iff]
    all_goals tauto

/-- Witness for C4 amended: the benign current-orchestrator run releases the
lock; the fully-successful legacy run releases it too. -/
theorem C4_amended_witness :
    (cmdUpdate001 envBase).lockReleased = true ∧
    (legacyUpdate envLegacyOk).lockReleased = true :=
  ⟨C4_amended.1 envBase rfl,
   (C4_amended.2.2 envLegacyOk).mpr ⟨by decide, by decide⟩⟩
